import Mathlib

/-!
Shallow embedding of `lib_i2cadc.c` (ADC board LTC2309 control library).

C strings are modelled as lists of byte values (`List Nat`), C `int` as `Int`
where signedness matters and as `Nat` where the source value is provably
non-negative.  The external I2C transport (`lib_i2c`, out of scope for the
library itself) is modelled as an oracle: every transport call consumes one
tick of a call counter, and the oracle maps (tick, address/command byte) to
the call's return value, so arbitrary response sequences are expressible.
-/

namespace I2CAdc

/-- Byte-list view of a string literal (ASCII codes), modelling a C string. -/
def str (s : String) : List Nat := s.data.map Char.toNat

/-- Macro `SWAP_WORD(x) = ((x >> 8) & 0xFF) | ((x << 8) & 0xFF00)`. -/
def SWAP_WORD (x : Nat) : Nat := ((x >>> 8) &&& 0xFF) ||| ((x <<< 8) &&& 0xFF00)

/-- Constant `ADC_REF_VOLTAGE = 5`. -/
def ADC_REF_VOLTAGE : Nat := 5

/-- Macro `ADC_WEIGHT_uV = (ADC_REF_VOLTAGE * 1000000) / 4096`. -/
def ADC_WEIGHT_uV : Nat := (ADC_REF_VOLTAGE * 1000000) / 4096

/-- Enum values `CHIP_ADC0 .. CHIP_ADC5, NOT_USED`. -/
def CHIP_ADC0 : Nat := 0

def CHIP_ADC1 : Nat := 1

def CHIP_ADC2 : Nat := 2

def CHIP_ADC3 : Nat := 3

def CHIP_ADC4 : Nat := 4

def CHIP_ADC5 : Nat := 5

def NOT_USED : Nat := 6

/-- Table `ADC_I2C_ADDR`: I2C addresses of the 6 LTC2309 devices. -/
def ADC_I2C_ADDR : List Nat := [0x08, 0x09, 0x0A, 0x0B, 0x18, 0x19]

/-- Table `ADC_CH_ADDR`: channel-select register bytes. -/
def ADC_CH_ADDR : List Nat := [0x88, 0xC8, 0x98, 0xD8, 0xA8, 0xE8, 0xB8, 0xF8]

/-- `struct pin_info`. -/
structure pin_info where
  name : String
  pin_num : Nat
  adc_idx : Nat
  ch_idx : Nat
  deriving DecidableEq

/-- Table `HEADER_CON1`. -/
def HEADER_CON1 : List pin_info := [
  ⟨"CON1.0" ,  0, NOT_USED , 0⟩,
  ⟨"CON1.1" ,  1, CHIP_ADC0, 0⟩,
  ⟨"CON1.2" ,  2, CHIP_ADC0, 1⟩,
  ⟨"CON1.3" ,  3, CHIP_ADC1, 0⟩,
  ⟨"CON1.4" ,  4, CHIP_ADC0, 2⟩,
  ⟨"CON1.5" ,  5, CHIP_ADC1, 1⟩,
  ⟨"CON1.6" ,  6, NOT_USED , 0⟩,
  ⟨"CON1.7" ,  7, CHIP_ADC1, 2⟩,
  ⟨"CON1.8" ,  8, CHIP_ADC1, 3⟩,
  ⟨"CON1.9" ,  9, NOT_USED , 0⟩,
  ⟨"CON1.10", 10, CHIP_ADC1, 4⟩,
  ⟨"CON1.11", 11, CHIP_ADC1, 5⟩,
  ⟨"CON1.12", 12, CHIP_ADC1, 6⟩,
  ⟨"CON1.13", 13, CHIP_ADC1, 7⟩,
  ⟨"CON1.14", 14, NOT_USED , 0⟩,
  ⟨"CON1.15", 15, CHIP_ADC2, 0⟩,
  ⟨"CON1.16", 16, CHIP_ADC2, 1⟩,
  ⟨"CON1.17", 17, CHIP_ADC0, 3⟩,
  ⟨"CON1.18", 18, CHIP_ADC2, 2⟩,
  ⟨"CON1.19", 19, CHIP_ADC2, 3⟩,
  ⟨"CON1.20", 20, NOT_USED , 0⟩,
  ⟨"CON1.21", 21, CHIP_ADC2, 4⟩,
  ⟨"CON1.22", 22, CHIP_ADC2, 5⟩,
  ⟨"CON1.23", 23, CHIP_ADC2, 6⟩,
  ⟨"CON1.24", 24, CHIP_ADC2, 7⟩,
  ⟨"CON1.25", 25, NOT_USED , 0⟩,
  ⟨"CON1.26", 26, CHIP_ADC3, 0⟩,
  ⟨"CON1.27", 27, CHIP_ADC3, 1⟩,
  ⟨"CON1.28", 28, CHIP_ADC3, 2⟩,
  ⟨"CON1.29", 29, CHIP_ADC3, 3⟩,
  ⟨"CON1.30", 30, NOT_USED , 0⟩,
  ⟨"CON1.31", 31, CHIP_ADC3, 4⟩,
  ⟨"CON1.32", 32, CHIP_ADC3, 5⟩,
  ⟨"CON1.33", 33, CHIP_ADC3, 6⟩,
  ⟨"CON1.34", 34, NOT_USED , 0⟩,
  ⟨"CON1.35", 35, CHIP_ADC3, 7⟩,
  ⟨"CON1.36", 36, CHIP_ADC4, 0⟩,
  ⟨"CON1.37", 37, NOT_USED , 0⟩,
  ⟨"CON1.38", 38, CHIP_ADC0, 4⟩,
  ⟨"CON1.39", 39, NOT_USED , 0⟩,
  ⟨"CON1.40", 40, NOT_USED , 0⟩]

/-- Table `HEADER_P3`. -/
def HEADER_P3 : List pin_info := [
  ⟨"P3.0" ,  0, NOT_USED , 0⟩,
  ⟨"P3.1" ,  1, NOT_USED , 0⟩,
  ⟨"P3.2" ,  2, CHIP_ADC5, 0⟩,
  ⟨"P3.3" ,  3, CHIP_ADC5, 1⟩,
  ⟨"P3.4" ,  4, NOT_USED , 0⟩,
  ⟨"P3.5" ,  5, CHIP_ADC5, 2⟩,
  ⟨"P3.6" ,  6, CHIP_ADC5, 3⟩,
  ⟨"P3.7" ,  7, NOT_USED , 0⟩,
  ⟨"P3.8" ,  8, CHIP_ADC5, 4⟩,
  ⟨"P3.9" ,  9, CHIP_ADC5, 5⟩,
  ⟨"P3.10", 10, NOT_USED , 0⟩]

/-- Table `HEADER_P13`. -/
def HEADER_P13 : List pin_info := [
  ⟨"P13.0", 0, NOT_USED , 0⟩,
  ⟨"P13.1", 1, NOT_USED , 0⟩,
  ⟨"P13.2", 2, CHIP_ADC4, 1⟩,
  ⟨"P13.3", 3, CHIP_ADC0, 5⟩,
  ⟨"P13.4", 4, CHIP_ADC4, 2⟩,
  ⟨"P13.5", 5, CHIP_ADC4, 3⟩,
  ⟨"P13.6", 6, CHIP_ADC4, 4⟩,
  ⟨"P13.7", 7, CHIP_ADC4, 5⟩]

/-- Table `HEADER_P1_1`. -/
def HEADER_P1_1 : List pin_info := [
  ⟨"P1_1.0", 0, NOT_USED , 0⟩,
  ⟨"P1_1.1", 1, CHIP_ADC0, 7⟩,
  ⟨"P1_1.2", 2, CHIP_ADC0, 6⟩,
  ⟨"P1_1.3", 3, CHIP_ADC0, 5⟩,
  ⟨"P1_1.4", 4, CHIP_ADC0, 4⟩,
  ⟨"P1_1.5", 5, CHIP_ADC0, 3⟩,
  ⟨"P1_1.6", 6, CHIP_ADC0, 2⟩,
  ⟨"P1_1.7", 7, CHIP_ADC0, 1⟩,
  ⟨"P1_1.8", 8, CHIP_ADC0, 0⟩]

/-- Table `HEADER_P1_2`. -/
def HEADER_P1_2 : List pin_info := [
  ⟨"P1_2.0", 0, NOT_USED , 0⟩,
  ⟨"P1_2.1", 1, CHIP_ADC1, 7⟩,
  ⟨"P1_2.2", 2, CHIP_ADC1, 6⟩,
  ⟨"P1_2.3", 3, CHIP_ADC1, 5⟩,
  ⟨"P1_2.4", 4, CHIP_ADC1, 4⟩,
  ⟨"P1_2.5", 5, CHIP_ADC1, 3⟩,
  ⟨"P1_2.6", 6, CHIP_ADC1, 2⟩,
  ⟨"P1_2.7", 7, CHIP_ADC1, 1⟩,
  ⟨"P1_2.8", 8, CHIP_ADC1, 0⟩]

/-- Table `HEADER_P1_3`. -/
def HEADER_P1_3 : List pin_info := [
  ⟨"P1_3.0", 0, NOT_USED , 0⟩,
  ⟨"P1_3.1", 1, CHIP_ADC2, 7⟩,
  ⟨"P1_3.2", 2, CHIP_ADC2, 6⟩,
  ⟨"P1_3.3", 3, CHIP_ADC2, 5⟩,
  ⟨"P1_3.4", 4, CHIP_ADC2, 4⟩,
  ⟨"P1_3.5", 5, CHIP_ADC2, 3⟩,
  ⟨"P1_3.6", 6, CHIP_ADC2, 2⟩,
  ⟨"P1_3.7", 7, CHIP_ADC2, 1⟩,
  ⟨"P1_3.8", 8, CHIP_ADC2, 0⟩]

/-- Table `HEADER_P1_4`. -/
def HEADER_P1_4 : List pin_info := [
  ⟨"P1_4.0", 0, NOT_USED , 0⟩,
  ⟨"P1_4.1", 1, CHIP_ADC3, 7⟩,
  ⟨"P1_4.2", 2, CHIP_ADC3, 6⟩,
  ⟨"P1_4.3", 3, CHIP_ADC3, 5⟩,
  ⟨"P1_4.4", 4, CHIP_ADC3, 4⟩,
  ⟨"P1_4.5", 5, CHIP_ADC3, 3⟩,
  ⟨"P1_4.6", 6, CHIP_ADC3, 2⟩,
  ⟨"P1_4.7", 7, CHIP_ADC3, 1⟩,
  ⟨"P1_4.8", 8, CHIP_ADC3, 0⟩]

/-- Table `HEADER_P1_5`. -/
def HEADER_P1_5 : List pin_info := [
  ⟨"P1_5.0", 0, NOT_USED , 0⟩,
  ⟨"P1_5.1", 1, CHIP_ADC4, 7⟩,
  ⟨"P1_5.2", 2, CHIP_ADC4, 6⟩,
  ⟨"P1_5.3", 3, CHIP_ADC4, 5⟩,
  ⟨"P1_5.4", 4, CHIP_ADC4, 4⟩,
  ⟨"P1_5.5", 5, CHIP_ADC4, 3⟩,
  ⟨"P1_5.6", 6, CHIP_ADC4, 2⟩,
  ⟨"P1_5.7", 7, CHIP_ADC4, 1⟩,
  ⟨"P1_5.8", 8, CHIP_ADC4, 0⟩]

/-- Table `HEADER_P1_6`. -/
def HEADER_P1_6 : List pin_info := [
  ⟨"P1_6.0", 0, NOT_USED , 0⟩,
  ⟨"P1_6.1", 1, CHIP_ADC5, 7⟩,
  ⟨"P1_6.2", 2, CHIP_ADC5, 6⟩,
  ⟨"P1_6.3", 3, CHIP_ADC5, 5⟩,
  ⟨"P1_6.4", 4, CHIP_ADC5, 4⟩,
  ⟨"P1_6.5", 5, CHIP_ADC5, 3⟩,
  ⟨"P1_6.6", 6, CHIP_ADC5, 2⟩,
  ⟨"P1_6.7", 7, CHIP_ADC5, 1⟩,
  ⟨"P1_6.8", 8, CHIP_ADC5, 0⟩]

/-- The (prefix-literal, table) pairs tested by `header_info`, in source order. -/
def HEADERS : List (List Nat × List pin_info) :=
  [(str "CON1", HEADER_CON1), (str "P3", HEADER_P3), (str "P13", HEADER_P13),
   (str "P1_1", HEADER_P1_1), (str "P1_2", HEADER_P1_2), (str "P1_3", HEADER_P1_3),
   (str "P1_4", HEADER_P1_4), (str "P1_5", HEADER_P1_5), (str "P1_6", HEADER_P1_6)]

/-- `strncmp(pre, s, strlen(pre)) == 0`: the first `|pre|` bytes of `s` equal
`pre` (a shorter `s` fails the comparison on its terminating NUL). -/
def strncmpEq : List Nat → List Nat → Bool
  | [], _ => true
  | _ :: _, [] => false
  | a :: pre2, b :: s => a == b && strncmpEq pre2 s

/-- Common body of each `header_info` branch, applied to the already-clamped
pin number `pn`: `p = pn ? &tbl[pn] : &tbl[1]; cnt = pn ? 1 : size - 1`.
The returned pointer is modelled as the suffix of the table it points into. -/
def header_sel2 (tbl : List pin_info) (pn : Int) : List pin_info × Nat :=
  if pn = 0 then (tbl.drop 1, tbl.length - 1) else (tbl.drop pn.toNat, 1)

/-- One `header_info` branch: `pin_no = pin_no < ARRARY_SIZE(tbl) ? pin_no : 0`
followed by the pointer/count selection. -/
def header_sel (tbl : List pin_info) (pin_no : Int) : List pin_info × Nat :=
  header_sel2 tbl (if pin_no < (tbl.length : Int) then pin_no else 0)

/-- `header_info(h_name, pin_no, p_cnt)`: first-match prefix dispatch in
source order; on no match the source returns `&HEADER_CON1[0]` with count 0. -/
def header_info (h_name : List Nat) (pin_no : Int) : List pin_info × Nat :=
  if strncmpEq (str "CON1") h_name then header_sel HEADER_CON1 pin_no
  else if strncmpEq (str "P3") h_name then header_sel HEADER_P3 pin_no
  else if strncmpEq (str "P13") h_name then header_sel HEADER_P13 pin_no
  else if strncmpEq (str "P1_1") h_name then header_sel HEADER_P1_1 pin_no
  else if strncmpEq (str "P1_2") h_name then header_sel HEADER_P1_2 pin_no
  else if strncmpEq (str "P1_3") h_name then header_sel HEADER_P1_3 pin_no
  else if strncmpEq (str "P1_4") h_name then header_sel HEADER_P1_4 pin_no
  else if strncmpEq (str "P1_5") h_name then header_sel HEADER_P1_5 pin_no
  else if strncmpEq (str "P1_6") h_name then header_sel HEADER_P1_6 pin_no
  else (HEADER_CON1, 0)

/-- Oracle for the external I2C transport: result of the `n`-th transport call
(`i2c_set_addr` with a slave address, or `i2c_read_word` with a command byte). -/
structure Bus where
  setAddrRes : Nat → Nat → Int
  readRes : Nat → Nat → Int

/-- The retry loop `while (i2c_set_addr(fd, addr) && retry--) usleep(100);`
starting at tick `t` with C variable `retry` holding `r`.  Returns the value of
`retry` after the loop together with the next tick.  A successful
`i2c_set_addr` (result 0) short-circuits `&&`, leaving `retry` undecremented;
a failure post-decrements `retry`, exiting with `-1` once it reaches 0. -/
def selectLoop (bus : Bus) (addr : Nat) : Nat → Nat → Int × Nat
  | r, t =>
    if bus.setAddrRes t addr = 0 then ((r : Int), t + 1)
    else
      match r with
      | 0 => (-1, t + 1)
      | r' + 1 => selectLoop bus addr r' (t + 1)

/-- Extraction of the conversion code:
`(SWAP_WORD(read_val) >> 4) & 0xFFF`. -/
def extract_code (x : Nat) : Nat := (SWAP_WORD x >>> 4) &&& 0xFFF

/-- `read_pin(fd, info)` at starting tick `t`: returns the raw code and the
next tick.  Mirrors the source: immediate 0 for `NOT_USED`; the retry loop;
`if (retry)` guarding the dummy read plus real read; negative read results
clamped to 0; swap/shift/mask extraction. -/
def read_pin (bus : Bus) (t : Nat) (info : pin_info) : Nat × Nat :=
  if info.adc_idx = NOT_USED then (0, t)
  else
    let sl := selectLoop bus (ADC_I2C_ADDR.getD info.adc_idx 0) 3 t
    if sl.1 ≠ 0 then
      let rv : Int := bus.readRes (sl.2 + 1) (ADC_CH_ADDR.getD info.ch_idx 0)
      let rv : Int := if rv < 0 then 0 else rv
      (extract_code rv.toNat, sl.2 + 2)
    else (0, sl.2)

/-- `convert_to_mv(adc_value)`: the `unsigned short` parameter conversion is
`% 65536`; then `volt = adc_value * ADC_WEIGHT_uV; return volt / 1000;`. -/
def convert_to_mv (adc_value : Nat) : Nat :=
  ((adc_value % 65536) * ADC_WEIGHT_uV) / 1000

/-- Loop body of `check_devices`: for each address, one (ignored)
`i2c_set_addr` call then one `i2c_read_word(fd, addr)`; fail on a negative
read result. -/
def check_loop (bus : Bus) : Nat → List Nat → Bool × Nat
  | t, [] => (true, t)
  | t, addr :: rest =>
    if bus.readRes (t + 1) addr < 0 then (false, t + 2)
    else check_loop bus (t + 2) rest

/-- `check_devices(fd)` over the six entries of `ADC_I2C_ADDR`. -/
def check_devices (bus : Bus) (t : Nat) : Bool × Nat := check_loop bus t ADC_I2C_ADDR

/-- The transport as seen by `adc_board_init`: the result of
`i2c_open(i2c_dev_node)` plus the bus oracle behind the returned fd. -/
structure Transport where
  openRes : Int
  bus : Bus

/-- `adc_board_init(i2c_dev_node)`: note the source returns 0 (not -1) when
`i2c_open` fails, and -1 (after `close`) when `check_devices` fails. -/
def adc_board_init (tr : Transport) : Int :=
  if tr.openRes < 0 then 0
  else if (check_devices tr.bus 0).1 then tr.openRes
  else -1

/-- `toupper` on a byte (C locale): lowercase letters are shifted to
uppercase, everything else is unchanged. -/
def upperByte (b : Nat) : Nat := if 97 ≤ b ∧ b ≤ 122 then b - 32 else b

/-- `toupperstr(p)`. -/
def toupperstr (s : List Nat) : List Nat := s.map upperByte

/-- `strtok(str, ".")`: skip leading dots, return the run up to the next dot,
and the remainder after the consumed terminator (the source's second token
starts there).  An empty first token models `strtok` returning NULL. -/
def strtok1 (s : List Nat) : List Nat × List Nat :=
  ((s.dropWhile (fun b => b == 46)).takeWhile (fun b => b != 46),
   ((s.dropWhile (fun b => b == 46)).dropWhile (fun b => b != 46)).drop 1)

/-- `strtok(NULL, " ")` on the remainder: skip leading spaces, return the run
up to the next space, or `none` (NULL) when nothing is left. -/
def strtok2 (s : List Nat) : Option (List Nat) :=
  if ((s.dropWhile (fun b => b == 32)).takeWhile (fun b => b != 32)).isEmpty then none
  else some ((s.dropWhile (fun b => b == 32)).takeWhile (fun b => b != 32))

/-- `isspace` on a byte (C locale). -/
def isSpaceByte (b : Nat) : Bool := b == 32 || (9 ≤ b && b ≤ 13)

/-- `isdigit` on a byte. -/
def isDigitByte (b : Nat) : Bool := 48 ≤ b && b ≤ 57

/-- Decimal value of a digit run. -/
def digitsVal (l : List Nat) : Nat := l.foldl (fun a b => a * 10 + (b - 48)) 0

/-- `atoi`: skip whitespace, optional sign, then leading digits (0 if none). -/
def atoi (s : List Nat) : Int :=
  match s.dropWhile isSpaceByte with
  | [] => 0
  | b :: r =>
    if b = 45 then -(digitsVal (r.takeWhile isDigitByte) : Int)
    else if b = 43 then (digitsVal (r.takeWhile isDigitByte) : Int)
    else (digitsVal ((b :: r).takeWhile isDigitByte) : Int)

/-- The read loop of `adc_board_read`:
`read_value[i] = convert_to_mv(read_pin(fd, p)); p++` threading the tick. -/
def readAll (bus : Bus) : Nat → List pin_info → List Nat
  | _, [] => []
  | t, p :: ps =>
    let r := read_pin bus t p
    convert_to_mv r.1 :: readAll bus r.2 ps

/-- `adc_board_read(fd, h_name, read_value, cnt)`, returning
(status, written readings, written `*cnt` or `none` when left unset).
A NULL name or `fd == 0` yields -1 with nothing written; an unresolved
header yields 0 with nothing written.  (The source's 10-byte `str` buffer
overflows for names of 10 or more bytes; that undefined behaviour is not
modelled.) -/
def adc_board_read (bus : Bus) (fd : Int) (h_name : Option (List Nat)) :
    Int × List Nat × Option Nat :=
  match h_name with
  | none => (-1, [], none)
  | some s =>
    if fd = 0 then (-1, [], none)
    else
      let tk := strtok1 s
      let p_name := toupperstr tk.1
      let pin_no : Int :=
        match strtok2 tk.2 with
        | some t2 => atoi t2
        | none => 0
      let hi := header_info p_name pin_no
      if hi.2 ≠ 0 then (1, readAll bus 0 (hi.1.take hi.2), some hi.2)
      else (0, [], none)

/-- Spec-side byte swap: exchange the high and low bytes of a 16-bit word,
written arithmetically (to be compared with the source's `SWAP_WORD`). -/
def swap_bytes (w : Nat) : Nat := (w % 256) * 256 + (w / 256) % 256

/-- A transport oracle with constant responses, for concrete evaluations. -/
def busConst (a r : Int) : Bus := ⟨fun _ _ => a, fun _ _ => r⟩

/-- A transport on which every `i2c_set_addr` fails and every `i2c_read_word`
returns 0xF000. -/
def busSelFail : Bus := ⟨fun _ _ => 1, fun _ _ => 0xF000⟩

/-- A transport on which `i2c_set_addr` fails on the first three calls and
succeeds from the fourth call on; reads return 0xF000. -/
def busSelLate : Bus := ⟨fun t _ => if t < 3 then 1 else 0, fun _ _ => 0xF000⟩

/-- A transport on which only the chip at address 0x18 (`CHIP_ADC4`) fails to
respond to reads. -/
def busFailOne : Bus := ⟨fun _ _ => 0, fun _ addr => if addr = 0x18 then -1 else 0⟩

/-- C1: `adc_board_init` returns 0 — not -1 — when the transport device node
cannot be opened (`i2c_open < 0`); it does return -1 when the all-chips
presence check fails (also when a single chip, here the one at 0x18, fails a
read), and the open handle when all six chips respond. -/
theorem adc_board_init_open_fail_returns_zero :
    adc_board_init ⟨-1, busConst 0 0⟩ = 0 ∧ (0 : Int) ≠ -1 ∧
    adc_board_init ⟨3, busConst 0 (-1)⟩ = -1 ∧
    adc_board_init ⟨3, busFailOne⟩ = -1 ∧
    adc_board_init ⟨3, busConst 0 0⟩ = 3 := by decide

/-- C2: when every device-selection attempt fails, `read_pin` exits the retry
loop with `retry == -1`, so the `if (retry)` guard is true and the two
conversion reads are performed anyway: on a bus whose reads return 0xF000 the
function returns raw code 15 (not 0) after six transport calls.  Moreover a
selection that only succeeds on the fourth call leaves `retry == 0` and is
treated as a failure, returning 0 after four transport calls. -/
theorem read_pin_retry_exhausted_still_reads :
    read_pin busSelFail 0 ⟨"CON1.1", 1, CHIP_ADC0, 0⟩ = (15, 6) ∧ (15 : Nat) ≠ 0 ∧
    read_pin busSelLate 0 ⟨"CON1.1", 1, CHIP_ADC0, 0⟩ = (0, 4) := by decide

/-- C3: `ADC_WEIGHT_uV` is the truncation of 5000000 / 4096, i.e. 1220, and
for every raw code up to 4095 `convert_to_mv` is truncating multiplication by
1220 followed by truncating division by 1000; in particular 0 ↦ 0,
2048 ↦ 2498 and 4095 ↦ 4995. -/
theorem convert_to_mv_spec :
    ADC_WEIGHT_uV = 1220 ∧
    (∀ r : Nat, r ≤ 4095 → convert_to_mv r = r * 1220 / 1000) ∧
    convert_to_mv 0 = 0 ∧ convert_to_mv 2048 = 2498 ∧ convert_to_mv 4095 = 4995 := by
  refine ⟨by decide, ?_, by decide, by decide, by decide⟩
  intro r hr
  unfold convert_to_mv
  rw [Nat.mod_eq_of_lt (by omega), show ADC_WEIGHT_uV = 1220 from by decide]

/-- Witness for C3 at raw code 2048. -/
theorem convert_to_mv_spec_witness :
    (2048 : Nat) ≤ 4095 ∧ convert_to_mv 2048 = 2048 * 1220 / 1000 :=
  ⟨by decide, convert_to_mv_spec.2.1 2048 (by decide)⟩

/-- C5: for every header table and every in-range pin number `n > 0`,
`header_info` returns count 1 and the single entry it designates has
`pin_num = n`. -/
theorem header_info_single_pin :
    ∀ p ∈ HEADERS, ∀ n, n < p.2.length → 0 < n →
      (header_info p.1 (n : Int)).2 = 1 ∧
      ((header_info p.1 (n : Int)).1.take 1).map (fun e => e.pin_num) = [n] := by
  decide

/-- Witness for C5: header CON1, pin 5. -/
theorem header_info_single_pin_witness :
    ((str "CON1", HEADER_CON1) ∈ HEADERS ∧ 5 < HEADER_CON1.length ∧ (0 : Nat) < 5) ∧
    (header_info (str "CON1") (5 : Nat)).2 = 1 ∧
    ((header_info (str "CON1") (5 : Nat)).1.take 1).map (fun e => e.pin_num) = [5] :=
  ⟨⟨by decide, by decide, by decide⟩,
   header_info_single_pin (str "CON1", HEADER_CON1) (by decide) 5 (by decide) (by decide)⟩

/-- With a pin number that is 0 or at least the table length, the branch body
returns the whole table past the sentinel, with count `length - 1`. -/
theorem header_sel_whole (tbl : List pin_info) (pin_no : Int)
    (h : pin_no = 0 ∨ (tbl.length : Int) ≤ pin_no) :
    header_sel tbl pin_no = (tbl.drop 1, tbl.length - 1) := by
  unfold header_sel header_sel2
  rcases h with rfl | h
  · split <;> simp
  · rw [if_neg (show ¬(pin_no < (tbl.length : Int)) from by omega), if_pos rfl]

/-- `header_info` on the exact name CON1 dispatches to `HEADER_CON1`. -/
theorem header_info_eq_CON1 (pin_no : Int) :
    header_info (str "CON1") pin_no = header_sel HEADER_CON1 pin_no := rfl

/-- `header_info` on the exact name P3 dispatches to `HEADER_P3`. -/
theorem header_info_eq_P3 (pin_no : Int) :
    header_info (str "P3") pin_no = header_sel HEADER_P3 pin_no := rfl

/-- `header_info` on the exact name P13 dispatches to `HEADER_P13`. -/
theorem header_info_eq_P13 (pin_no : Int) :
    header_info (str "P13") pin_no = header_sel HEADER_P13 pin_no := rfl

/-- `header_info` on the exact name P1_1 dispatches to `HEADER_P1_1`. -/
theorem header_info_eq_P1_1 (pin_no : Int) :
    header_info (str "P1_1") pin_no = header_sel HEADER_P1_1 pin_no := rfl

/-- `header_info` on the exact name P1_2 dispatches to `HEADER_P1_2`. -/
theorem header_info_eq_P1_2 (pin_no : Int) :
    header_info (str "P1_2") pin_no = header_sel HEADER_P1_2 pin_no := rfl

/-- `header_info` on the exact name P1_3 dispatches to `HEADER_P1_3`. -/
theorem header_info_eq_P1_3 (pin_no : Int) :
    header_info (str "P1_3") pin_no = header_sel HEADER_P1_3 pin_no := rfl

/-- `header_info` on the exact name P1_4 dispatches to `HEADER_P1_4`. -/
theorem header_info_eq_P1_4 (pin_no : Int) :
    header_info (str "P1_4") pin_no = header_sel HEADER_P1_4 pin_no := rfl

/-- `header_info` on the exact name P1_5 dispatches to `HEADER_P1_5`. -/
theorem header_info_eq_P1_5 (pin_no : Int) :
    header_info (str "P1_5") pin_no = header_sel HEADER_P1_5 pin_no := rfl

/-- `header_info` on the exact name P1_6 dispatches to `HEADER_P1_6`. -/
theorem header_info_eq_P1_6 (pin_no : Int) :
    header_info (str "P1_6") pin_no = header_sel HEADER_P1_6 pin_no := rfl

/-- C6: for every header table, a pin number of 0 or out of range resolves to
the whole table past the sentinel row, with count `length - 1`; the entries
returned carry pin numbers 1 .. length-1 in order. -/
theorem header_info_whole_header :
    ∀ p ∈ HEADERS, ∀ pin_no : Int,
      (pin_no = 0 ∨ (p.2.length : Int) ≤ pin_no) →
      header_info p.1 pin_no = (p.2.drop 1, p.2.length - 1) ∧
      ((p.2.drop 1).take (p.2.length - 1)).map (fun e => e.pin_num) =
        List.range' 1 (p.2.length - 1) := by
  intro p hp pin_no hpin
  simp only [HEADERS, List.mem_cons, List.not_mem_nil, or_false] at hp
  rcases hp with rfl | rfl | rfl | rfl | rfl | rfl | rfl | rfl | rfl
  · exact ⟨by rw [header_info_eq_CON1, header_sel_whole _ _ hpin], by decide⟩
  · exact ⟨by rw [header_info_eq_P3, header_sel_whole _ _ hpin], by decide⟩
  · exact ⟨by rw [header_info_eq_P13, header_sel_whole _ _ hpin], by decide⟩
  · exact ⟨by rw [header_info_eq_P1_1, header_sel_whole _ _ hpin], by decide⟩
  · exact ⟨by rw [header_info_eq_P1_2, header_sel_whole _ _ hpin], by decide⟩
  · exact ⟨by rw [header_info_eq_P1_3, header_sel_whole _ _ hpin], by decide⟩
  · exact ⟨by rw [header_info_eq_P1_4, header_sel_whole _ _ hpin], by decide⟩
  · exact ⟨by rw [header_info_eq_P1_5, header_sel_whole _ _ hpin], by decide⟩
  · exact ⟨by rw [header_info_eq_P1_6, header_sel_whole _ _ hpin], by decide⟩

/-- Witness for C6: whole-header query on P3 with pin number 0. -/
theorem header_info_whole_header_witness :
    ((str "P3", HEADER_P3) ∈ HEADERS ∧ ((0 : Int) = 0 ∨ (HEADER_P3.length : Int) ≤ 0)) ∧
    header_info (str "P3") 0 = (HEADER_P3.drop 1, HEADER_P3.length - 1) ∧
    ((HEADER_P3.drop 1).take (HEADER_P3.length - 1)).map (fun e => e.pin_num) =
      List.range' 1 (HEADER_P3.length - 1) :=
  ⟨⟨by decide, Or.inl rfl⟩,
   header_info_whole_header (str "P3", HEADER_P3) (by decide) 0 (Or.inl rfl)⟩

/-- C9: a pin whose `adc_idx` is the `NOT_USED` sentinel reads as raw code 0
immediately, with no transport interaction (the tick is unchanged), on every
bus, and raw code 0 converts to 0 mV. -/
theorem read_pin_not_used (bus : Bus) (t : Nat) (info : pin_info)
    (h : info.adc_idx = NOT_USED) :
    read_pin bus t info = (0, t) ∧ convert_to_mv 0 = 0 := by
  unfold read_pin
  rw [if_pos h]
  exact ⟨rfl, rfl⟩

/-- Witness for C9: pin CON1.6 on a bus with nonzero responses. -/
theorem read_pin_not_used_witness :
    (pin_info.mk "CON1.6" 6 NOT_USED 0).adc_idx = NOT_USED ∧
    read_pin (busConst 1 77) 5 (pin_info.mk "CON1.6" 6 NOT_USED 0) = (0, 5) ∧
    convert_to_mv 0 = 0 :=
  ⟨rfl, read_pin_not_used (busConst 1 77) 5 (pin_info.mk "CON1.6" 6 NOT_USED 0) rfl⟩

/-- When the (uppercased) name matches none of the nine prefixes, the
resolver falls through to the final branch: sentinel pointer, count 0. -/
theorem header_info_no_match (name : List Nat)
    (H : ∀ p ∈ HEADERS, strncmpEq p.1 name = false) (pin_no : Int) :
    header_info name pin_no = (HEADER_CON1, 0) := by
  have h1 : strncmpEq (str "CON1") name = false :=
    H (str "CON1", HEADER_CON1) (by simp [HEADERS])
  have h2 : strncmpEq (str "P3") name = false :=
    H (str "P3", HEADER_P3) (by simp [HEADERS])
  have h3 : strncmpEq (str "P13") name = false :=
    H (str "P13", HEADER_P13) (by simp [HEADERS])
  have h4 : strncmpEq (str "P1_1") name = false :=
    H (str "P1_1", HEADER_P1_1) (by simp [HEADERS])
  have h5 : strncmpEq (str "P1_2") name = false :=
    H (str "P1_2", HEADER_P1_2) (by simp [HEADERS])
  have h6 : strncmpEq (str "P1_3") name = false :=
    H (str "P1_3", HEADER_P1_3) (by simp [HEADERS])
  have h7 : strncmpEq (str "P1_4") name = false :=
    H (str "P1_4", HEADER_P1_4) (by simp [HEADERS])
  have h8 : strncmpEq (str "P1_5") name = false :=
    H (str "P1_5", HEADER_P1_5) (by simp [HEADERS])
  have h9 : strncmpEq (str "P1_6") name = false :=
    H (str "P1_6", HEADER_P1_6) (by simp [HEADERS])
  simp [header_info, h1, h2, h3, h4, h5, h6, h7, h8, h9]

/-- C8: a header name whose uppercased first token matches no known prefix
resolves to count 0, and `adc_board_read` returns 0 with the output count
left unwritten. -/
theorem adc_board_read_unknown_header (bus : Bus) (fd : Int) (s : List Nat) (pin_no : Int)
    (hfd : fd ≠ 0)
    (H : ∀ p ∈ HEADERS, strncmpEq p.1 (toupperstr (strtok1 s).1) = false) :
    header_info (toupperstr (strtok1 s).1) pin_no = (HEADER_CON1, 0) ∧
    adc_board_read bus fd (some s) = (0, [], none) := by
  refine ⟨header_info_no_match _ H pin_no, ?_⟩
  simp only [adc_board_read]
  rw [if_neg hfd]
  simp [header_info_no_match _ H]

/-- Witness for C8: the unknown header name XYZ. -/
theorem adc_board_read_unknown_header_witness :
    ((1 : Int) ≠ 0 ∧
      ∀ p ∈ HEADERS, strncmpEq p.1 (toupperstr (strtok1 (str "XYZ")).1) = false) ∧
    header_info (toupperstr (strtok1 (str "XYZ")).1) 0 = (HEADER_CON1, 0) ∧
    adc_board_read (busConst 0 0) 1 (some (str "XYZ")) = (0, [], none) :=
  ⟨⟨by decide, by decide⟩,
   adc_board_read_unknown_header (busConst 0 0) 1 (str "XYZ") 0 (by decide) (by decide)⟩

/-- The masked extraction never exceeds 12 bits. -/
theorem extract_code_le (x : Nat) : extract_code x ≤ 4095 :=
  Nat.and_le_right

/-- `read_pin` returns a raw code of at most 4095 on every bus. -/
theorem read_pin_le (bus : Bus) (t : Nat) (info : pin_info) :
    (read_pin bus t info).1 ≤ 4095 := by
  unfold read_pin
  split
  · exact Nat.zero_le _
  · dsimp only
    split
    · exact extract_code_le _
    · exact Nat.zero_le _

/-- Raw codes of at most 4095 convert to at most 4995 mV. -/
theorem convert_to_mv_le (v : Nat) (h : v ≤ 4095) : convert_to_mv v ≤ 4995 := by
  unfold convert_to_mv
  have h2 : v % 65536 ≤ 4095 := le_trans (Nat.mod_le _ _) h
  calc (v % 65536) * ADC_WEIGHT_uV / 1000 ≤ 4095 * 1220 / 1000 := by
        rw [show ADC_WEIGHT_uV = 1220 from by decide]
        exact Nat.div_le_div_right (Nat.mul_le_mul_right _ h2)
    _ = 4995 := by decide

/-- Every reading produced by the read loop is at most 4995 mV. -/
theorem readAll_le (bus : Bus) :
    ∀ (ps : List pin_info) (t : Nat), ∀ v ∈ readAll bus t ps, v ≤ 4995 := by
  intro ps
  induction ps with
  | nil => intro t v hv; simp [readAll] at hv
  | cons p ps ih =>
    intro t v hv
    simp only [readAll] at hv
    rcases List.mem_cons.mp hv with rfl | h
    · exact convert_to_mv_le _ (read_pin_le bus t p)
    · exact ih _ _ h

/-- Whatever the arguments and bus responses, every value `adc_board_read`
writes is at most 4995. -/
theorem adc_board_read_values_le (bus : Bus) (fd : Int) (name : Option (List Nat)) :
    ∀ v ∈ (adc_board_read bus fd name).2.1, v ≤ 4995 := by
  intro v hv
  cases name with
  | none => simp [adc_board_read] at hv
  | some s =>
    simp only [adc_board_read] at hv
    split at hv
    · simp at hv
    · split at hv
      · exact readAll_le bus _ _ v hv
      · simp at hv

/-- C10: whenever `adc_board_read` reports success (status 1), every written
reading lies in [0, 4995], for every possible sequence of bus responses. -/
theorem adc_board_read_values_in_range (bus : Bus) (fd : Int) (name : Option (List Nat))
    (h : (adc_board_read bus fd name).1 = 1) :
    ∀ v ∈ (adc_board_read bus fd name).2.1, 0 ≤ v ∧ v ≤ 4995 :=
  fun v hv => ⟨Nat.zero_le v, adc_board_read_values_le bus fd name v hv⟩

/-- Witness for C10: a successful single-pin read on an all-zero bus. -/
theorem adc_board_read_values_in_range_witness :
    (adc_board_read (busConst 0 0) 1 (some (str "CON1.1"))).1 = 1 ∧
    ∀ v ∈ (adc_board_read (busConst 0 0) 1 (some (str "CON1.1"))).2.1,
      0 ≤ v ∧ v ≤ 4995 :=
  ⟨by decide, adc_board_read_values_in_range (busConst 0 0) 1 (some (str "CON1.1")) (by decide)⟩

/-- `toupper` is idempotent on bytes. -/
theorem upperByte_idem (b : Nat) : upperByte (upperByte b) = upperByte b := by
  unfold upperByte
  by_cases hc : 97 ≤ b ∧ b ≤ 122
  · rw [if_pos hc, if_neg (by omega)]
  · rw [if_neg hc, if_neg hc]

/-- `toupper` fixes every byte below 65 (equality with such a byte is
unchanged); in particular the dot, space and sign characters. -/
theorem upperByte_eq_low (b c : Nat) (hc : c < 65) : upperByte b = c ↔ b = c := by
  unfold upperByte
  split <;> omega

/-- Boolean form of `upperByte_eq_low`. -/
theorem upperByte_beq_low (b c : Nat) (hc : c < 65) : (upperByte b == c) = (b == c) := by
  by_cases hb : b = c
  · subst hb
    rw [show upperByte b = b from if_neg (by omega)]
  · have h2 : upperByte b ≠ c := fun e => hb ((upperByte_eq_low b c hc).mp e)
    rw [beq_eq_false_iff_ne.mpr h2]
    exact (beq_eq_false_iff_ne.mpr hb).symm

/-- Negated boolean form of `upperByte_eq_low`. -/
theorem upperByte_bne_low (b c : Nat) (hc : c < 65) : (upperByte b != c) = (b != c) := by
  show (!(upperByte b == c)) = !(b == c)
  rw [upperByte_beq_low b c hc]

/-- `toupper` preserves `isspace`. -/
theorem upperByte_isSpace (b : Nat) : isSpaceByte (upperByte b) = isSpaceByte b := by
  unfold isSpaceByte upperByte
  split
  · next h =>
    rw [beq_eq_false_iff_ne.mpr (show b - 32 ≠ 32 from by omega),
      beq_eq_false_iff_ne.mpr (show b ≠ 32 from by omega),
      decide_eq_false (show ¬(b - 32 ≤ 13) from by omega),
      decide_eq_false (show ¬(b ≤ 13) from by omega)]
    simp
  · rfl

/-- `toupper` preserves `isdigit`. -/
theorem upperByte_isDigit (b : Nat) : isDigitByte (upperByte b) = isDigitByte b := by
  unfold isDigitByte upperByte
  split
  · next h =>
    rw [decide_eq_false (show ¬(b - 32 ≤ 57) from by omega),
      decide_eq_false (show ¬(b ≤ 57) from by omega)]
    simp
  · rfl

/-- `toupper` fixes digits. -/
theorem upperByte_digit_id (b : Nat) (h : isDigitByte b = true) : upperByte b = b := by
  unfold isDigitByte at h
  simp only [Bool.and_eq_true, decide_eq_true_eq] at h
  unfold upperByte
  split <;> omega

/-- `takeWhile` commutes with a map whose function preserves the predicate. -/
theorem takeWhile_map_comm (f : Nat → Nat) (p : Nat → Bool)
    (h : ∀ b, p (f b) = p b) (l : List Nat) :
    (l.map f).takeWhile p = (l.takeWhile p).map f := by
  induction l with
  | nil => rfl
  | cons b t ih =>
    simp only [List.map_cons, List.takeWhile_cons, h b]
    cases hb : p b
    · simp
    · simp [ih]

/-- `dropWhile` commutes with a map whose function preserves the predicate. -/
theorem dropWhile_map_comm (f : Nat → Nat) (p : Nat → Bool)
    (h : ∀ b, p (f b) = p b) (l : List Nat) :
    (l.map f).dropWhile p = (l.dropWhile p).map f := by
  induction l with
  | nil => rfl
  | cons b t ih =>
    simp only [List.map_cons, List.dropWhile_cons, h b]
    cases hb : p b
    · simp
    · simp [ih]

/-- Uppercasing leaves the leading digit run unchanged. -/
theorem takeWhile_digits_upper (l : List Nat) :
    (l.map upperByte).takeWhile isDigitByte = l.takeWhile isDigitByte := by
  induction l with
  | nil => rfl
  | cons b t ih =>
    simp only [List.map_cons, List.takeWhile_cons, upperByte_isDigit b]
    cases hb : isDigitByte b
    · rfl
    · simp [ih, upperByte_digit_id b hb]

/-- `atoi` ignores case. -/
theorem atoi_upper (s : List Nat) : atoi (toupperstr s) = atoi s := by
  unfold atoi toupperstr
  rw [dropWhile_map_comm upperByte isSpaceByte upperByte_isSpace]
  cases hd : s.dropWhile isSpaceByte with
  | nil => rfl
  | cons b r =>
    simp only [List.map_cons]
    simp only [upperByte_eq_low b 45 (by omega), upperByte_eq_low b 43 (by omega)]
    simp only [← List.map_cons, takeWhile_digits_upper]

/-- `toupperstr` is idempotent. -/
theorem toupperstr_idem (l : List Nat) : toupperstr (toupperstr l) = toupperstr l := by
  unfold toupperstr
  rw [List.map_map]
  exact List.map_congr_left (fun a _ => upperByte_idem a)

/-- The first `strtok` commutes with uppercasing. -/
theorem strtok1_upper (s : List Nat) :
    strtok1 (toupperstr s) =
      (toupperstr (strtok1 s).1, toupperstr (strtok1 s).2) := by
  unfold strtok1 toupperstr
  rw [dropWhile_map_comm upperByte _ (fun b => upperByte_beq_low b 46 (by omega)),
    takeWhile_map_comm upperByte _ (fun b => upperByte_bne_low b 46 (by omega)),
    dropWhile_map_comm upperByte _ (fun b => upperByte_bne_low b 46 (by omega)),
    List.map_drop]

/-- The second `strtok` commutes with uppercasing. -/
theorem strtok2_upper (s : List Nat) :
    strtok2 (toupperstr s) = (strtok2 s).map toupperstr := by
  unfold strtok2 toupperstr
  rw [dropWhile_map_comm upperByte _ (fun b => upperByte_beq_low b 32 (by omega)),
    takeWhile_map_comm upperByte _ (fun b => upperByte_bne_low b 32 (by omega))]
  cases (s.dropWhile (fun b => b == 32)).takeWhile (fun b => b != 32) with
  | nil => rfl
  | cons b t => rfl

/-- C7: header-name matching through the public read entry point is
case-insensitive: reading with a name and with its uppercased spelling
performs the same resolution and produces identical results on every bus
(e.g. "con1.5" versus "CON1.5"). -/
theorem adc_board_read_case_insensitive (bus : Bus) (fd : Int) (s : List Nat) :
    adc_board_read bus fd (some (toupperstr s)) = adc_board_read bus fd (some s) := by
  simp only [adc_board_read, strtok1_upper, toupperstr_idem, strtok2_upper]
  cases h2 : strtok2 (strtok1 s).2 with
  | none => rfl
  | some t2 => simp [atoi_upper]

/-- The bitwise `SWAP_WORD` macro computes the arithmetic byte exchange. -/
theorem swap_word_eq (w : Nat) : SWAP_WORD w = (w % 256) * 256 + w / 256 % 256 := by
  have hb : w / 2 ^ 8 % 2 ^ 8 < 2 ^ 8 := Nat.mod_lt _ (by decide)
  have hmain : SWAP_WORD w = 2 ^ 8 * (w % 2 ^ 8) ||| (w / 2 ^ 8 % 2 ^ 8) := by
    unfold SWAP_WORD
    rw [show (0xFF : Nat) = 2 ^ 8 - 1 from by decide,
      show (0xFF00 : Nat) = (2 ^ 8 - 1) <<< 8 from by decide,
      Nat.mul_comm (2 ^ 8) (w % 2 ^ 8), ← Nat.shiftLeft_eq,
      show w / 2 ^ 8 % 2 ^ 8 = w >>> 8 % 2 ^ 8 from by
        rw [Nat.shiftRight_eq_div_pow]]
    apply Nat.eq_of_testBit_eq
    intro i
    simp only [Nat.testBit_or, Nat.testBit_and, Nat.testBit_shiftRight,
      Nat.testBit_shiftLeft, Nat.testBit_two_pow_sub_one, Nat.testBit_mod_two_pow]
    by_cases hi : i < 8
    · simp [hi, show ¬(8 ≤ i) from by omega]
    · simp [hi, show 8 ≤ i from by omega, Bool.and_comm]
  rw [hmain, ← Nat.mul_add_lt_is_or hb]
  rw [show (2 : Nat) ^ 8 = 256 from by decide]
  ring

/-- C4: the conversion code extracted by `read_pin` from a non-negative
16-bit bus word equals the word with its two bytes exchanged, then shifted
right by 4 bits, then masked to 12 bits: swap first, shift second, mask
last. -/
theorem extract_code_swap_shift_mask (w : Nat) (hw : w < 65536) :
    SWAP_WORD w = swap_bytes w ∧
    extract_code w = swap_bytes w / 16 % 4096 := by
  have h1 : SWAP_WORD w = swap_bytes w := by
    rw [swap_word_eq]
    unfold swap_bytes
    ring
  refine ⟨h1, ?_⟩
  unfold extract_code
  rw [h1, Nat.shiftRight_eq_div_pow, show (0xFFF : Nat) = 2 ^ 12 - 1 from by decide,
    Nat.and_pow_two_sub_one_eq_mod, show (2 : Nat) ^ 4 = 16 from by decide,
    show (2 : Nat) ^ 12 = 4096 from by decide]

/-- Witness for C4 at the word 0x1234. -/
theorem extract_code_swap_shift_mask_witness :
    (0x1234 : Nat) < 65536 ∧
    (SWAP_WORD 0x1234 = swap_bytes 0x1234 ∧
      extract_code 0x1234 = swap_bytes 0x1234 / 16 % 4096) :=
  ⟨by decide, extract_code_swap_shift_mask 0x1234 (by decide)⟩

end I2CAdc
